import Mathlib

/-!
Verification development for `pudb/var_view.py` (variables-pane core of the
pudb debugger): a shallow embedding of its data model, tree-walking engine,
frame assembly and widget renderer, together with theorems settling the
specification claims C1-C10.

Text is modelled as `List Char`; the external `pudb.ui_tools.text_width`
helper (repository code not under `src/`) is modelled per the spec as the
display-column width, with every embedded character occupying one column.
-/

set_option maxHeartbeats 2000000

/-- Character-list text, the embedding of Python `str` values. -/
abbrev Str := List Char

/-- Models Python "%s" formatting of a value that may be None
(`"%s.cont-%d" % (id_path, i)` formats a None id_path as the text None). -/
def fmtOpt : Option Str → Str
  | none => "None".data
  | some s => s

/-- Models the Python builtin repr() on a nonnegative int: decimal digits. -/
def natRepr (n : Nat) : Str := (Nat.repr n).data

/-- Models the Python builtin repr() on an int: decimal digits with sign. -/
def intRepr (i : Int) : Str := (Int.repr i).data

/-- Models the Python builtin repr() on a str: quote-wrapped text. CPython's
quote-style selection and escape sequences are not modelled; no claim depends
on them. -/
def strReprPy (s : Str) : Str := '\'' :: (s ++ ['\''])

/-- Per-id-path inspection state (`class InspectInfo`, var_view.py:71-82).
`display_type` and `access_level` are plain strings in the source and stay
strings here. -/
structure InspectInfo where
  showDetail : Bool
  displayType : Str
  highlighted : Bool
  repeatedAtTop : Bool
  accessLevel : Str
  showMethods : Bool
  wrap : Bool
deriving DecidableEq

/-- Modelled from the spec: `InspectInfo.__init__` reads session defaults from
`pudb.debugger.CONFIG` (repository code not under src/). Spec section 3 fixes
`show_detail` to default-collapsed; the stock configuration defaults are the
"type" stringifier, "public" access level and wrapping off. -/
def defaultIInfo : InspectInfo :=
  ⟨false, "type".data, false, false, "public".data, false, false⟩

/-- The `id_path_to_iinfo` mapping of `FrameVarInfo` (var_view.py:57-68), as an
association list keyed by the optional id-path (a Python dict whose key may be
None). -/
abbrev Store := List (Option Str × InspectInfo)

/-- Python `dict.get` on the store: first binding for the key, if any. -/
def storeGet (st : Store) (k : Option Str) : Option InspectInfo :=
  (st.find? (fun e => e.1 == k)).map (fun e => e.2)

/-- `FrameVarInfo.get_inspect_info` (var_view.py:62-68): with `read_only` the
Python `dict.get` returns a fresh default without inserting; otherwise
`dict.setdefault` inserts the default for an absent key. The possibly updated
store is returned alongside the result. -/
def getInspectInfo (st : Store) (idPath : Option Str) (readOnly : Bool) :
    InspectInfo × Store :=
  if readOnly then
    ((storeGet st idPath).getD defaultIInfo, st)
  else
    match storeGet st idPath with
    | some i => (i, st)
    | none => (defaultIInfo, st ++ [(idPath, defaultIInfo)])

/-- Shallow embedding of the Python value universe seen by
`ValueWalker.walk_value` (var_view.py:363-520). Constructors map onto the
branches of the walker:
* `vint`, `vstr`, `vnone` - the primitive branches (`integer_types`/float,
  `string_types`, None);
* `verr` - a `WatchEvalError` instance (var_view.py:90-92);
* `vset` - `isinstance(value, (set, frozenset))`;
* `vdict` - a value whose `.keys()` succeeds; each entry stores the repr text
  of the key and the outcome of `value[key]` (an error models the caught
  LookupError/TypeError);
* `vseq` - a value with `len()` and index access but no `.keys()`;
* `vobj` - a generic object: repr/str/`safely_stringify_for_pudb` outcomes,
  the outcome of `dir(value)`, and a `getattr` table mapping names to either
  a failure or `(value, inspect.isroutine(value))`.
`tyName` is `type(value).__name__`; `isExact` states that the value's type is
exactly the builtin of that name (Python `type(value) in [...]` tests). -/
inductive Value where
  | vint (n : Int)
  | vstr (s : Str)
  | vnone
  | verr
  | vset (tyName : Str) (isExact : Bool) (elems : List Value)
  | vdict (tyName : Str) (isExact : Bool) (entries : List (Str × Except Unit Value))
  | vseq (tyName : Str) (isExact : Bool) (elems : List Value)
  | vobj (tyName : Str) (reprR : Except Unit Str) (strR : Except Unit Str)
         (safeStr : Option (Except Unit Str))
         (dirR : Except Unit (List Str))
         (attrs : List (Str × Except Unit (Value × Bool)))

/-- `type(value).__name__` on the embedded universe. -/
def Value.typeName : Value → Str
  | .vint _ => "int".data
  | .vstr _ => "str".data
  | .vnone => "NoneType".data
  | .verr => "WatchEvalError".data
  | .vset t _ _ => t
  | .vdict t _ _ => t
  | .vseq t _ _ => t
  | .vobj t _ _ _ _ _ => t

/-- The primitive-value test of walk_value (var_view.py:369-374): int-like,
string, or None values take the leaf branches and are never recursed into. -/
def Value.isPrimitive : Value → Bool
  | .vint _ => true
  | .vstr _ => true
  | .vnone => true
  | _ => false

/-- Whether `type(value) in [set, frozenset, list, tuple, dict]` holds
(var_view.py:318). -/
def builtinContainerName (t : Str) : Bool :=
  t = "set".data || t = "frozenset".data || t = "list".data ||
    t = "tuple".data || t = "dict".data

/-- `type_stringifier` (var_view.py:289-321). numpy is modelled as not
installed (`HAVE_NUMPY = 0`). `STR_SAFE_TYPES` membership is modelled for
`WatchEvalError` (whose `str()` is the constant error text); the
function/method/frame types of that tuple are not distinguished in the value
universe. A non-string result of `safely_stringify_for_pudb` is not
modelled. The function catches every internal failure, so it always returns
text. -/
def typeStringifier (v : Value) : Str :=
  match v with
  | .verr => "<error>".data
  | .vset t ex es =>
    if ex && builtinContainerName t then
      t ++ " (".data ++ natRepr es.length ++ ")".data
    else t
  | .vdict t ex en =>
    if ex && builtinContainerName t then
      t ++ " (".data ++ natRepr en.length ++ ")".data
    else t
  | .vseq t ex es =>
    if ex && builtinContainerName t then
      t ++ " (".data ++ natRepr es.length ++ ")".data
    else t
  | .vobj t _ _ safeStr _ _ =>
    match safeStr with
    | some (.ok s) => s
    | some (.error _) => "!! safely_stringify_for_pudb call failed !!".data
    | none => t
  | v => v.typeName

/-- Comma-separated join, as in CPython container reprs. -/
def joinCommaSep : List Str → Str
  | [] => []
  | [s] => s
  | s :: rest => s ++ ", ".data ++ joinCommaSep rest

/-- Collects a list of fallible texts, propagating the first failure (an
element whose repr raises makes the container's repr raise). -/
def seqExcept : List (Except Unit Str) → Except Unit (List Str)
  | [] => .ok []
  | .ok s :: rest => (seqExcept rest).map (fun l => s :: l)
  | .error e :: _ => .error e

/-- Models the Python builtin repr() on the embedded universe. Container reprs
join their elements' reprs and propagate element failures, as CPython does;
exact bracket choice for non-list sequence types and overridden `__repr__` of
container subclasses are not modelled (no claim depends on repr text of
containers). A `vobj`'s repr is its oracle field; for `WatchEvalError` the
CPython default object repr (which contains a memory address) is modelled as a
fixed text. -/
def pyRepr : Value → Except Unit Str
  | .vint n => .ok (intRepr n)
  | .vstr s => .ok (strReprPy s)
  | .vnone => .ok "None".data
  | .verr => .ok "<WatchEvalError object>".data
  | .vset _ _ es =>
    (seqExcept (es.attach.map (fun e => pyRepr e.1))).map
      (fun rs => '\x7b' :: (joinCommaSep rs ++ ['\x7d']))
  | .vdict _ _ en =>
    (seqExcept (en.attach.map (fun e =>
      match h : e.1.2 with
      | .ok v => (pyRepr v).map (fun r => e.1.1 ++ ": ".data ++ r)
      | .error _ => .error ()))).map
      (fun rs => '\x7b' :: (joinCommaSep rs ++ ['\x7d']))
  | .vseq _ _ es =>
    (seqExcept (es.attach.map (fun e => pyRepr e.1))).map
      (fun rs => '[' :: (joinCommaSep rs ++ [']']))
  | .vobj _ reprR _ _ _ _ => reprR
decreasing_by
  · have h1 := List.sizeOf_lt_of_mem e.2
    cases e with | mk x hx => simp at h1 ⊢; omega
  · have h1 := List.sizeOf_lt_of_mem e.2
    obtain ⟨⟨a, r⟩, hm⟩ := e
    simp at h1 h ⊢
    subst h
    simp at h1
    omega
  · have h1 := List.sizeOf_lt_of_mem e.2
    cases e with | mk x hx => simp at h1 ⊢; omega

/-- Models the Python builtin str() on the embedded universe: primitives print
their text, containers fall back to repr, a `vobj` uses its `__str__` oracle,
and `WatchEvalError.__str__` is the constant error marker
(var_view.py:90-92). -/
def pyStr : Value → Except Unit Str
  | .vint n => .ok (intRepr n)
  | .vstr s => .ok s
  | .vnone => .ok "None".data
  | .verr => .ok "<error>".data
  | .vobj _ _ strR _ _ _ => strR
  | v => pyRepr v

/-- `get_stringifier` (var_view.py:324-354) composed with its call site: the
text produced by the stringifier selected by `display_type`, or a failure when
that call raises. The custom-stringifier branch loads a user file, an external
collaborator (spec sections 1, 4.2); its load-failure constant function is the
model for non-builtin display types. -/
def applyStringifier (displayType : Str) (v : Value) : Except Unit Str :=
  if displayType = "type".data then .ok (typeStringifier v)
  else if displayType = "repr".data then pyRepr v
  else if displayType = "str".data then pyStr v
  else .ok "ERROR: Invalid custom stringifier file.".data

/-- The access-level/methods marker appended to an expanded node's display
text (var_view.py:385-394). -/
def detailMarker (iinfo : InspectInfo) : Str :=
  let marker := if iinfo.accessLevel = "public".data then "pub".data
    else if iinfo.accessLevel = "private".data then "pri".data
    else "all".data
  let marker := if iinfo.showMethods then marker ++ "+()".data else marker
  " [".data ++ marker ++ "]".data

/-- The displayed text of a non-primitive node and the log entries produced
while computing it (var_view.py:376-394): the stringifier's result, replaced on
failure by the type summary plus an inline error marker (with the exception
logged), and suffixed with the detail marker when the node is expanded. -/
def displayedAndLog (iinfo : InspectInfo) (v : Value) : Str × List Str :=
  match applyStringifier iinfo.displayType v with
  | .ok s => (if iinfo.showDetail then s ++ detailMarker iinfo else s, [])
  | .error _ =>
    let base := typeStringifier v ++ " (!! ".data ++ iinfo.displayType
      ++ " error !!)".data
    (if iinfo.showDetail then base ++ detailMarker iinfo else base,
     ["stringifier failed".data])

/-- Association lookup modelling `getattr(value, key)` through a vobj's attr
table: first binding wins, absence models the raised AttributeError. -/
def assocFind {α : Type} (l : List (Str × α)) (k : Str) : Option α :=
  match l with
  | [] => none
  | (k', v) :: rest => if k' = k then some v else assocFind rest k

/-- Every list has positive size (used for termination of the walker). -/
theorem list_sizeOf_pos {A : Type} [SizeOf A] (l : List A) : 0 < sizeOf l := by
  cases l with
  | nil => simp
  | cons a l => simp

/-- Whether a member is omitted as a hidden routine (var_view.py:498-502):
getattr succeeded, `inspect.isroutine` holds on the result, and methods are
not shown. A failed getattr is never omitted this way (the exception skips
the isroutine test and the member becomes a `WatchEvalError` leaf). -/
def routineOmitted (iinfo : InspectInfo)
    (attrs : List (Str × Except Unit (Value × Bool))) (key : Str) : Bool :=
  match assocFind attrs key with
  | some (.ok (_, isRt)) => isRt && !iinfo.showMethods
  | _ => false

/-- The value walked for a surviving member (var_view.py:498-506): the
getattr result, or the `WatchEvalError` sentinel when getattr raised (also
when dir listed a name the attr table lacks). -/
def attrValueOf (attrs : List (Str × Except Unit (Value × Bool)))
    (key : Str) : Value :=
  match assocFind attrs key with
  | some (.ok (av, _)) => av
  | _ => .verr

/-- A value found in an attr table is structurally smaller than the table
(used for termination of the walker). -/
theorem assocFind_sizeOf_lt (attrs : List (Str × Except Unit (Value × Bool)))
    (k : Str) (v : Value) (b : Bool)
    (h : assocFind attrs k = some (.ok (v, b))) : sizeOf v < sizeOf attrs := by
  induction attrs with
  | nil => simp [assocFind] at h
  | cons hd tl ih =>
    obtain ⟨k', r⟩ := hd
    by_cases hk : k' = k
    · simp [assocFind, hk] at h
      subst h
      simp
      omega
    · simp only [assocFind, hk, if_false] at h
      have := ih h
      simp
      omega

/-- The walked member value is never larger than the attr table (used for
termination of the walker). -/
theorem attrValueOf_sizeOf_le (attrs : List (Str × Except Unit (Value × Bool)))
    (k : Str) : sizeOf (attrValueOf attrs k) ≤ sizeOf attrs := by
  have hp := list_sizeOf_pos attrs
  unfold attrValueOf
  cases h : assocFind attrs k with
  | none => simp; omega
  | some r =>
    cases r with
    | ok p =>
      cases p with
      | mk av b => simpa using le_of_lt (assocFind_sizeOf_lt attrs k av b h)
    | error e => simp; omega

/-- Lexicographic strict comparison of texts by character code: the Python
`str` ordering, restricted to what sorting needs. -/
def strLt : Str → Str → Bool
  | _, [] => false
  | [], _ :: _ => true
  | a :: as, b :: bs =>
    if a.toNat < b.toNat then true
    else if a = b then strLt as bs
    else false

/-- Modelled from the spec: Python `list.sort()` is a stable comparison sort,
and a stable sort's output is uniquely determined by the comparison, so stable
insertion (before strictly greater elements only) reproduces it exactly. -/
def insertSorted (lt : Str → Str → Bool) (x : Str) : List Str → List Str
  | [] => [x]
  | y :: ys => if lt y x then y :: insertSorted lt x ys else x :: y :: ys

/-- `list.sort()` with comparison `lt`, as stable insertion sort. -/
def sortByLt (lt : Str → Str → Bool) : List Str → List Str
  | [] => []
  | x :: xs => insertSorted lt x (sortByLt lt xs)

theorem length_insertSorted (lt : Str → Str → Bool) (x : Str) (l : List Str) :
    (insertSorted lt x l).length = l.length + 1 := by
  induction l with
  | nil => rfl
  | cons y ys ih => by_cases h : lt y x = true <;> simp [insertSorted, h, ih]

theorem length_sortByLt (lt : Str → Str → Bool) (l : List Str) :
    (sortByLt lt l).length = l.length := by
  induction l with
  | nil => rfl
  | cons x xs ih => simp [sortByLt, length_insertSorted, ih]

theorem length_le_sizeOf (l : List Str) : l.length ≤ sizeOf l := by
  induction l with
  | nil => simp
  | cons x xs ih => simp; omega

/-- The nesting level a widget gets from its parent
(`VariableWidget.__init__`, var_view.py:123): 0 for a root, parent + 1
below. -/
def childDepth : Option Nat → Nat
  | none => 0
  | some n => n + 1

/-- One `add_item` call as emitted by `ValueWalker.walk_value`: the arguments
handed to the sink, together with the nesting depth the created widget gets.
The emission sequence is identical across sink variants, which differ only in
how they accumulate these calls. -/
structure Item where
  depth : Nat
  varLabel : Option Str
  valueStr : Option Str
  idPath : Option Str
  attrPfx : Option Str
deriving DecidableEq

/-- The outcome of a traversal step: emitted add_item calls in order, ui_log
messages in order, and the threaded inspection-state store. -/
structure WOut where
  items : List Item
  log : List Str
  store : Store
deriving DecidableEq

mutual
/-- `ValueWalker.walk_value` (var_view.py:363-520) as a sink-independent
emission trace: the ordered `add_item` calls (each recorded with the nesting
depth its widget gets), the `ui_log` messages, and the threaded
inspection-state store (every lookup the walker performs passes
`read_only=True`). `parentD` is the nesting level of the parent widget, if
any; `id_path` defaults to the label when absent. -/
def walkValue (st : Store) (parentD : Option Nat) (label : Option Str)
    (v : Value) (idPath0 : Option Str) (attrPfx : Option Str) : WOut :=
  let idPath := match idPath0 with | none => label | some p => some p
  let ii := getInspectInfo st idPath true
  let iinfo := ii.1
  let st1 := ii.2
  let d := childDepth parentD
  match v with
  | .vint n => ⟨[⟨d, label, some (intRepr n), idPath, attrPfx⟩], [], st1⟩
  | .vstr s => ⟨[⟨d, label, some (strReprPy s), idPath, attrPfx⟩], [], st1⟩
  | .vnone => ⟨[⟨d, label, some "None".data, idPath, attrPfx⟩], [], st1⟩
  | .verr =>
    let dl := displayedAndLog iinfo .verr
    let selfItem : Item := ⟨d, label, some dl.1, idPath, attrPfx⟩
    if iinfo.showDetail then
      -- Class-types branch. dir() of a WatchEvalError instance is modelled as
      -- an empty attribute list (its dunder attributes are not modelled), so
      -- nothing survives, `keys` is empty with zero omission counters, and
      -- the `<empty>` summary leaf is emitted; dir succeeded, so no `<?>`.
      ⟨[selfItem, ⟨d + 1, some "<empty>".data, none, none, none⟩], dl.2, st1⟩
    else ⟨[selfItem], dl.2, st1⟩
  | .vset tn ex elems =>
    let dl := displayedAndLog iinfo (.vset tn ex elems)
    let selfItem : Item := ⟨d, label, some dl.1, idPath, attrPfx⟩
    if iinfo.showDetail then
      let r := walkSetElems st1 d idPath elems 0
      let emptyItems : List Item :=
        if elems.isEmpty then [⟨d + 1, some "<empty>".data, none, none, none⟩]
        else []
      ⟨selfItem :: (r.items ++ emptyItems), dl.2 ++ r.log, r.store⟩
    else ⟨[selfItem], dl.2, st1⟩
  | .vdict tn ex entries =>
    let dl := displayedAndLog iinfo (.vdict tn ex entries)
    let selfItem : Item := ⟨d, label, some dl.1, idPath, attrPfx⟩
    if iinfo.showDetail then
      let r := walkDictEntries st1 d idPath entries 0
      let emptyItems : List Item :=
        if r.2 = 0 then [⟨d + 1, some "<empty>".data, none, none, none⟩]
        else []
      ⟨selfItem :: (r.1.items ++ emptyItems), dl.2 ++ r.1.log, r.1.store⟩
    else ⟨[selfItem], dl.2, st1⟩
  | .vseq tn ex elems =>
    let dl := displayedAndLog iinfo (.vseq tn ex elems)
    let selfItem : Item := ⟨d, label, some dl.1, idPath, attrPfx⟩
    if iinfo.showDetail then
      -- len() succeeds; `value[0]` on an empty sequence raises the caught
      -- LookupError, leaving an empty key iterator (cnt stays 0).
      let r := if elems.isEmpty then (⟨[], [], st1⟩, 0)
        else walkSeqElems st1 d idPath elems 0
      let emptyItems : List Item :=
        if r.2 = 0 then [⟨d + 1, some "<empty>".data, none, none, none⟩]
        else []
      ⟨selfItem :: (r.1.items ++ emptyItems), dl.2 ++ r.1.log, r.1.store⟩
    else ⟨[selfItem], dl.2, st1⟩
  | .vobj tn reprR strR safeStr dirR attrs =>
    let dl := displayedAndLog iinfo (.vobj tn reprR strR safeStr dirR attrs)
    let selfItem : Item := ⟨d, label, some dl.1, idPath, attrPfx⟩
    if iinfo.showDetail then
      match dirR with
      | .ok ks =>
        let keys := sortByLt strLt ks
        let r := walkObjAttrs st1 d idPath iinfo attrs keys 0 0
        let summary : List Item :=
          if keys.isEmpty then
            [⟨d + 1,
              some (if r.2.1 ≠ 0 then "<omitted private attributes>".data
                else if r.2.2 ≠ 0 then "<omitted methods>".data
                else "<empty>".data), none, none, none⟩]
          else []
        -- key_its is nonempty (dir succeeded): no `<?>` leaf.
        ⟨selfItem :: (r.1.items ++ summary), dl.2 ++ r.1.log, r.1.store⟩
      | .error _ =>
        -- dir() raised: logged, keys = [] with zero counters, so the summary
        -- leaf is `<empty>`; key_its = [] additionally emits `<?>`.
        ⟨[selfItem,
          ⟨d + 1, some "<empty>".data, none, none, none⟩,
          ⟨d + 1, some "<?>".data, none, none, none⟩],
         dl.2 ++ ["Failed to look up attributes".data], st1⟩
    else ⟨[selfItem], dl.2, st1⟩
termination_by (sizeOf v, 0)
decreasing_by
  all_goals first
    | decreasing_tactic
    | (have h2 := length_le_sizeOf ks
       have h3 := length_sortByLt strLt ks
       simp_wf
       omega)

/-- The set/frozenset loop of walk_value (var_view.py:403-417): elements are
walked label-less at paths `[i]`, with a continuation check before every tenth
element; a collapsed continuation state emits one placeholder and stops. -/
def walkSetElems (st : Store) (d : Nat) (idPath : Option Str)
    (elems : List Value) (i : Nat) : WOut :=
  match elems with
  | [] => ⟨[], [], st⟩
  | e :: rest =>
    let elemPath := fmtOpt idPath ++ "[".data ++ natRepr i ++ "]".data
    if i % 10 == 0 && i != 0 then
      let contPath := fmtOpt idPath ++ ".cont-".data ++ natRepr i
      let ci := getInspectInfo st (some contPath) true
      if ci.1.showDetail then
        let r1 := walkValue ci.2 (some d) none e (some elemPath) none
        let r2 := walkSetElems r1.store d idPath rest (i + 1)
        ⟨r1.items ++ r2.items, r1.log ++ r2.log, r2.store⟩
      else ⟨[⟨d + 1, some "...".data, none, some contPath, none⟩], [], ci.2⟩
    else
      let r1 := walkValue st (some d) none e (some elemPath) none
      let r2 := walkSetElems r1.store d idPath rest (i + 1)
      ⟨r1.items ++ r2.items, r1.log ++ r2.log, r2.store⟩
termination_by (sizeOf elems, 0)

/-- The integer-indexed container loop of walk_value (var_view.py:448-471)
for a sequence: keys are `range(len(value))`, labels are the keys' reprs,
element lookups always succeed. Returns the trace and the final `cnt`. -/
def walkSeqElems (st : Store) (d : Nat) (idPath : Option Str)
    (elems : List Value) (i : Nat) : WOut × Nat :=
  match elems with
  | [] => (⟨[], [], st⟩, i)
  | e :: rest =>
    let elemPath := fmtOpt idPath ++ "[".data ++ natRepr i ++ "]".data
    if i % 10 == 0 && i != 0 then
      let contPath := fmtOpt idPath ++ ".cont-".data ++ natRepr i
      let ci := getInspectInfo st (some contPath) true
      if ci.1.showDetail then
        let r1 := walkValue ci.2 (some d) (some (natRepr i)) e (some elemPath) none
        let r2 := walkSeqElems r1.store d idPath rest (i + 1)
        (⟨r1.items ++ r2.1.items, r1.log ++ r2.1.log, r2.1.store⟩, r2.2)
      else (⟨[⟨d + 1, some "...".data, none, some contPath, none⟩], [], ci.2⟩, i)
    else
      let r1 := walkValue st (some d) (some (natRepr i)) e (some elemPath) none
      let r2 := walkSeqElems r1.store d idPath rest (i + 1)
      (⟨r1.items ++ r2.1.items, r1.log ++ r2.1.log, r2.1.store⟩, r2.2)
termination_by (sizeOf elems, 0)

/-- The keyed-container loop of walk_value (var_view.py:448-471): each entry
carries the repr text of its key and the outcome of `value[key]`; a failing
lookup (the caught LookupError/TypeError) logs and stops the enumeration.
Returns the trace and the final `cnt`. -/
def walkDictEntries (st : Store) (d : Nat) (idPath : Option Str)
    (entries : List (Str × Except Unit Value)) (cnt : Nat) : WOut × Nat :=
  match entries with
  | [] => (⟨[], [], st⟩, cnt)
  | (kr, res) :: rest =>
    if cnt % 10 == 0 && cnt != 0 then
      let contPath := fmtOpt idPath ++ ".cont-".data ++ natRepr cnt
      let ci := getInspectInfo st (some contPath) true
      if ci.1.showDetail then
        match res with
        | .ok v =>
          let r1 := walkValue ci.2 (some d) (some kr) v
            (some (fmtOpt idPath ++ "[".data ++ kr ++ "]".data)) none
          let r2 := walkDictEntries r1.store d idPath rest (cnt + 1)
          (⟨r1.items ++ r2.1.items, r1.log ++ r2.1.log, r2.1.store⟩, r2.2)
        | .error _ =>
          (⟨[], ["Failed to iterate an item that appeared to be iterable.".data],
            ci.2⟩, cnt)
      else (⟨[⟨d + 1, some "...".data, none, some contPath, none⟩], [], ci.2⟩, cnt)
    else
      match res with
      | .ok v =>
        let r1 := walkValue st (some d) (some kr) v
          (some (fmtOpt idPath ++ "[".data ++ kr ++ "]".data)) none
        let r2 := walkDictEntries r1.store d idPath rest (cnt + 1)
        (⟨r1.items ++ r2.1.items, r1.log ++ r2.1.log, r2.1.store⟩, r2.2)
      | .error _ =>
        (⟨[], ["Failed to iterate an item that appeared to be iterable.".data],
          st⟩, cnt)
termination_by (sizeOf entries, 0)

/-- The class-types member loop of walk_value (var_view.py:488-508): each
sorted dir() name is filtered by the parent's access level (both filter
branches count into `cnt_omitted_private`), resolved through getattr (failure
becomes a `WatchEvalError` leaf), filtered for routines when methods are
hidden, and otherwise walked at path `.name`. Returns the trace and the final
`(cnt_omitted_private, cnt_omitted_methods)`. -/
def walkObjAttrs (st : Store) (d : Nat) (idPath : Option Str)
    (iinfo : InspectInfo) (attrs : List (Str × Except Unit (Value × Bool)))
    (keys : List Str) (cp cm : Nat) : WOut × Nat × Nat :=
  match keys with
  | [] => (⟨[], [], st⟩, cp, cm)
  | key :: rest =>
    if (iinfo.accessLevel = "public".data && "_".data.isPrefixOf key) ||
        (iinfo.accessLevel = "private".data && "__".data.isPrefixOf key
          && "__".data.isSuffixOf key) then
      walkObjAttrs st d idPath iinfo attrs rest (cp + 1) cm
    else
      let attrPath := fmtOpt idPath ++ ".".data ++ key
      if routineOmitted iinfo attrs key then
        walkObjAttrs st d idPath iinfo attrs rest cp (cm + 1)
      else
        let r1 := walkValue st (some d) (some ('.' :: key))
          (attrValueOf attrs key) (some attrPath) none
        let r2 := walkObjAttrs r1.store d idPath iinfo attrs rest cp cm
        (⟨r1.items ++ r2.1.items, r1.log ++ r2.1.log, r2.1.store⟩, r2.2)
termination_by (sizeOf attrs + keys.length, 1)
decreasing_by
  all_goals first
    | decreasing_tactic
    | (have h4 := attrValueOf_sizeOf_le attrs y
       simp_wf
       exact Prod.Lex.left _ _ (by omega))
end

/-- `VariableWidget` construction data (var_view.py:117-136): the nesting
level is computed from the parent at construction time; `attr_prefix or
"var"` supplies the default attribute class; `wrap` is snapshotted from the
InspectInfo handed in by the sink. -/
structure VariableWidget where
  nestingLevel : Nat
  varLabel : Option Str
  valueStr : Option Str
  idPath : Option Str
  attrPfx : Str
  watchExpr : Option Str
  wrap : Bool
deriving DecidableEq

/-- `attr_prefix or "var"` (var_view.py:128): None and the empty text are
falsy in Python. -/
def orVar : Option Str → Str
  | none => "var".data
  | some [] => "var".data
  | some s => s

/-- `BasicValueWalker.add_item` (var_view.py:523-537): a highlighted path
forces the "highlighted var" attribute prefix; the widget is appended to the
flat list (here: produced positionally from the emission trace, the store
being read-only during a traversal). -/
def basicAddItem (st : Store) (it : Item) : VariableWidget :=
  let iinfo := (getInspectInfo st it.idPath true).1
  let ap := if iinfo.highlighted then some "highlighted var".data else it.attrPfx
  ⟨it.depth, it.varLabel, it.valueStr, it.idPath, orVar ap, none, iinfo.wrap⟩

/-- `WatchValueWalker.add_item` (var_view.py:540-554): like the basic sink but
every widget records the owning watch expression. -/
def watchAddItem (st : Store) (watchExpr : Str) (it : Item) : VariableWidget :=
  let iinfo := (getInspectInfo st it.idPath true).1
  let ap := if iinfo.highlighted then some "highlighted var".data else it.attrPfx
  ⟨it.depth, it.varLabel, it.valueStr, it.idPath, orVar ap, some watchExpr,
    iinfo.wrap⟩

/-- Python `str.partition(sep)`: splits at the first occurrence of `sep`,
returning `(text, "", "")` when absent. Python raises ValueError for an empty
separator; the model returns the prefix decomposition `("", "", text)`
instead (see `shouldRepeatAtTop`). -/
def pyPartition (s sep : Str) : Str × Str × Str :=
  if sep.isPrefixOf s then ([], sep, s.drop sep.length)
  else match s with
    | [] => ([], [], [])
    | c :: rest =>
      let r := pyPartition rest sep
      (c :: r.1, r.2.1, r.2.2)

/-- `TopAndMainVariableWalker._should_repeat_at_top` (var_view.py:566-581):
a None id_path never repeats; otherwise the path repeats when it equals the
pinned prefix, or partitioning by the prefix leaves an empty `before`, the
prefix itself as separator, and a non-empty remainder starting with a
member/index separator character. -/
def shouldRepeatAtTop (idPath : Option Str) (tipp : Str) : Bool :=
  match idPath with
  | none => false
  | some p =>
    if p = tipp then true
    else
      let r := pyPartition p tipp
      (decide (r.1 = [])) && (decide (r.2.1 = tipp)) &&
        (match r.2.2 with
         | [] => false
         | c :: _ => c = '.' || c = '<' || c = '[')

/-- The mutable state of `TopAndMainVariableWalker` (var_view.py:557-564):
main and top widget lists plus the pinned id-path prefixes recorded so far. -/
structure TMState where
  mainW : List VariableWidget
  topW : List VariableWidget
  pins : List Str
deriving DecidableEq

/-- `TopAndMainVariableWalker.add_item` (var_view.py:583-603): a node whose
state is pinned records its id path (when not None) as a new prefix; the node
is duplicated into the top list when its own state is pinned or its path
repeats under any recorded prefix (checked after the recording). -/
def tmAddItem (st : Store) (s : TMState) (it : Item) : TMState :=
  let iinfo := (getInspectInfo st it.idPath true).1
  let ap := if iinfo.highlighted then some "highlighted var".data else it.attrPfx
  let pins := match it.idPath with
    | some p => if iinfo.repeatedAtTop then s.pins ++ [p] else s.pins
    | none => s.pins
  let rep := iinfo.repeatedAtTop
    || pins.any (fun t => shouldRepeatAtTop it.idPath t)
  let w : VariableWidget :=
    ⟨it.depth, it.varLabel, it.valueStr, it.idPath, orVar ap, none, iinfo.wrap⟩
  ⟨s.mainW ++ [w], if rep then s.topW ++ [w] else s.topW, pins⟩

/-- An entry of the assembled variables view: a widget or the separator
(var_view.py:610). -/
inductive VNode where
  | widget (w : VariableWidget)
  | sep
deriving DecidableEq

/-- `FrameVarInfo` (var_view.py:57-60): the per-stack-situation inspection
state store plus the stored watch expressions (each a source text). -/
structure FrameVarInfo where
  store : Store
  watches : List Str

/-- The case-insensitive variable ordering of make_var_view
(`vars.sort(key=str.lower)`, var_view.py:615). -/
def sortVarsLower (l : List Str) : List Str :=
  sortByLt (fun a b => strLt (a.map Char.toLower) (b.map Char.toLower)) l

/-- The watch block of make_var_view (var_view.py:621-628): each stored watch
expression is evaluated (failure producing the `WatchEvalError` sentinel) and
walked as its own root, all expressions sharing one widget accumulator. -/
def watchBlock (evalW : Str → Except Unit Value) (fvi : FrameVarInfo) :
    List VariableWidget :=
  (fvi.watches.map (fun e =>
    let value := match evalW e with | .ok v => v | .error _ => Value.verr
    (walkValue fvi.store none (some e) value none none).items.map
      (watchAddItem fvi.store e))).flatten

/-- The return-value block of make_var_view (var_view.py:630-632): when a
`__return__` binding exists it is walked through a fresh basic sink with the
label `Return` and the `return` attribute prefix. -/
def retBlock (fvi : FrameVarInfo) (locals : List (Str × Value)) :
    List VariableWidget :=
  if (sortVarsLower (locals.map Prod.fst)).contains "__return__".data then
    (walkValue fvi.store none (some "Return".data)
      ((assocFind locals "__return__".data).getD .vnone) none
      (some "return".data)).items.map (basicAddItem fvi.store)
  else []

/-- The top/main walker run of make_var_view (var_view.py:634-636): sorted
non-dunder locals are walked in turn through one shared
`TopAndMainVariableWalker`. -/
def tmRun (fvi : FrameVarInfo) (locals : List (Str × Value)) : TMState :=
  let vars := (sortVarsLower (locals.map Prod.fst)).filter
    (fun v => ¬("__".data.isPrefixOf v && "__".data.isSuffixOf v))
  ((vars.map (fun v =>
    (walkValue fvi.store none (some v) ((assocFind locals v).getD .vnone)
      none none).items)).flatten).foldl (tmAddItem fvi.store) ⟨[], [], []⟩

/-- `make_var_view` (var_view.py:613-649). `evalW` models the Python `eval`
of a watch expression against (globals, locals), an external collaborator;
`locals` is an association list in insertion order. The final list is built
exactly as in the source: main, then watch + separator prepended when
non-empty, then top + separator prepended when non-empty, then the return
nodes prepended when non-empty. -/
def makeVarView (evalW : Str → Except Unit Value) (fvi : FrameVarInfo)
    (locals : List (Str × Value)) : List VNode :=
  let watchWidgets := watchBlock evalW fvi
  let retWidgets := retBlock fvi locals
  let tm := tmRun fvi locals
  let result := tm.mainW.map VNode.widget
  let result := if watchWidgets.isEmpty then result
    else watchWidgets.map VNode.widget ++ [VNode.sep] ++ result
  let result := if tm.topW.isEmpty then result
    else tm.topW.map VNode.widget ++ [VNode.sep] ++ result
  let result := if retWidgets.isEmpty then result
    else retWidgets.map VNode.widget ++ result
  result

/-- Modelled from the spec: `pudb.ui_tools.text_width` (repository code not
under src/) returns the display-column width of a text; spec section 4.6
makes all width computations use display columns, and every embedded
character occupies one column, so the width is the length. -/
def textWidth (s : Str) : Nat := s.length

/-- `self.prefix = self.PREFIX * self.nesting_level` with `PREFIX = "| "`
(var_view.py:118-124). -/
def widgetPfx (n : Nat) : Str := (List.replicate n "| ".data).flatten

/-- A color span as an urwid rle attribute entry: attribute name and run
length. -/
abbrev AttrRun := Str × Nat

/-- The arguments render hands to `pudb.ui_tools.make_canvas` (the external
painting surface, spec section 6): text lines, per-line color spans, the
width, and the default attribute. -/
structure RenderOut where
  text : List Str
  attr : List (List AttrRun)
  maxcol : Nat
  defAttr : Str
deriving DecidableEq

/-- `VariableWidget._get_wrapped_lines` (var_view.py:149-166). Arithmetic is
on Nat; Python would raise ZeroDivisionError at an effective width of 2 and
misbehave on negative widths, neither of which the claims' rendered widths
reach (the indentation is assumed to fit). -/
def getWrappedLines (w : VariableWidget) (maxcol0 : Nat) : List Str :=
  let pfx := widgetPfx w.nestingLevel
  let maxcol := maxcol0 - pfx.length
  let varLabel := w.varLabel.getD []
  let valueStr := w.valueStr.getD []
  let alltext := varLabel ++ ": ".data ++ valueStr
  let firstline := pfx ++ alltext.take maxcol
  if alltext.drop maxcol = [] then [firstline]
  else
    let fulllines := (textWidth alltext - maxcol) / (maxcol - 2)
    let rest := (textWidth alltext - maxcol) % (maxcol - 2)
    let restlines := (List.range (fulllines + if rest ≠ 0 then 1 else 0)).map
      (fun i => (alltext.drop ((maxcol - 2) * i + maxcol)).take (maxcol - 2))
    [firstline] ++ restlines.map (fun t => pfx ++ "  ".data ++ t)

/-- `VariableWidget.rows` (var_view.py:168-180). -/
def widgetRows (w : VariableWidget) (maxcol : Nat) : Nat :=
  if w.wrap then (getWrappedLines w maxcol).length
  else if (getWrappedLines w maxcol).length > 1 then 2 else 1

/-- Models `urwid.util.rle_subseg` (external dependency of the renderer):
`x` is the absolute position already covered, `start` the positions still to
skip; runs are clipped at `stop` and iteration breaks once `stop` is
reached. -/
def rleSubsegAux : List AttrRun → Nat → Nat → Nat → List AttrRun
  | [], _, _, _ => []
  | (a, run) :: rest, start, stop, x =>
    if 0 < start then
      if start ≥ run then rleSubsegAux rest (start - run) stop (x + run)
      else
        let x1 := x + start
        let run1 := run - start
        if x1 ≥ stop then []
        else
          let run2 := if x1 + run1 > stop then stop - x1 else run1
          (a, run2) :: rleSubsegAux rest 0 stop (x1 + run2)
    else
      if x ≥ stop then []
      else
        let run2 := if x + run > stop then stop - x else run
        (a, run2) :: rleSubsegAux rest 0 stop (x + run2)

/-- `urwid.util.rle_subseg rle start stop`: the run-length encoded segment of
`rle` between positions `start` and `stop`. -/
def rleSubseg (l : List AttrRun) (start stop : Nat) : List AttrRun :=
  rleSubsegAux l start stop 0

/-- `VariableWidget.render` (var_view.py:182-278), up to the external
`make_canvas` boundary: the text lines, color spans, width and default
attribute handed to the canvas builder, paired with the widget state after
the call (the method assigns no attribute of self, so the post-state is the
input widget). The dead unicode-ellipsis branch (var_view.py:261-272, under
`if False:`) is omitted; a widget with neither label nor value would raise
in Python and renders the bare indentation here. On Nat, `totallen -
labellen` truncates where Python would produce a negative run. -/
def render (w : VariableWidget) (maxcol : Nat) (focus : Bool) :
    RenderOut × VariableWidget :=
  let apfx := (if focus then "focused ".data else []) ++ w.attrPfx ++ " ".data
  let varLabel := w.varLabel.getD []
  let pfx := widgetPfx w.nestingLevel
  if w.wrap then
    let text := getWrappedLines w maxcol
    let extralabelFull := textWidth (varLabel.drop maxcol) / maxcol
    let extralabelRem := textWidth (varLabel.drop maxcol) % maxcol
    let totallen := (text.map textWidth).sum
    let labellen := pfx.length
      + (pfx.length + 2) * (extralabelFull + if extralabelRem ≠ 0 then 1 else 0)
      + textWidth varLabel + 2
    let baseAttr : List AttrRun :=
      [(apfx ++ "label".data, labellen),
       (apfx ++ "value".data, totallen - labellen)]
    let fullcols := totallen / maxcol
    let rem := totallen % maxcol
    let attr := (List.range (fullcols + if rem ≠ 0 then 1 else 0)).map
      (fun i => rleSubseg baseAttr (i * maxcol) ((i + 1) * maxcol))
    (⟨text, attr, maxcol, apfx ++ "value".data⟩, w)
  else
    let lpfx := pfx.length
    let pair : List Str × List (List AttrRun) :=
      match w.valueStr with
      | some valueStr =>
        match w.varLabel with
        | some label0 =>
          if (getWrappedLines w maxcol).length > 1 then
            ([pfx ++ label0 ++ ":".data, pfx ++ "  ".data ++ valueStr],
             [[(apfx ++ "label".data, lpfx + textWidth label0 + 1)],
              [(apfx ++ "value".data, lpfx + 2 + textWidth valueStr)]])
          else
            ([pfx ++ label0 ++ ": ".data ++ valueStr],
             [[(apfx ++ "label".data, lpfx + textWidth label0 + 2),
               (apfx ++ "value".data, textWidth valueStr)]])
        | none =>
          ([pfx ++ valueStr],
           [[(apfx ++ "label".data, pfx.length),
             (apfx ++ "value".data, textWidth valueStr)]])
      | none =>
        ([pfx ++ varLabel],
         [[(apfx ++ "label".data, lpfx + textWidth varLabel)]])
    let text := pair.1.map (fun t =>
      if textWidth t > maxcol then t.take (maxcol - 3) ++ "...".data else t)
    (⟨text, pair.2, maxcol, apfx ++ "value".data⟩, w)

/-- Store preservation for the walker: every inspection-state lookup during a
traversal passes `read_only=True`, so the threaded store comes back
unchanged. -/
theorem walkValue_store : ∀ (st : Store) (pd : Option Nat) (l : Option Str)
    (v : Value) (ip ap : Option Str), (walkValue st pd l v ip ap).store = st := by
  apply @walkValue.induct
    (fun st pd l v ip ap => (walkValue st pd l v ip ap).store = st)
    (fun st d ip ii attrs keys cp cm =>
      (walkObjAttrs st d ip ii attrs keys cp cm).1.store = st)
    (fun st d ip elems i => (walkSeqElems st d ip elems i).1.store = st)
    (fun st d ip entries cnt => (walkDictEntries st d ip entries cnt).1.store = st)
    (fun st d ip elems i => (walkSetElems st d ip elems i).store = st) <;>
  intros <;>
  (try rw [walkValue.eq_def]) <;>
  (try rw [walkSetElems.eq_def]) <;>
  (try rw [walkSeqElems.eq_def]) <;>
  (try rw [walkDictEntries.eq_def]) <;>
  (try rw [walkObjAttrs.eq_def]) <;>
  (try simp_all +zetaDelta [getInspectInfo, apply_ite]) <;>
  (try (dsimp only; split_ifs <;> simp_all +zetaDelta [getInspectInfo, apply_ite]))

/-- Store preservation for the set-element loop. -/
theorem walkSetElems_store : ∀ (st : Store) (d : Nat) (ip : Option Str)
    (elems : List Value) (i : Nat), (walkSetElems st d ip elems i).store = st := by
  apply @walkSetElems.induct
    (fun st pd l v ip ap => (walkValue st pd l v ip ap).store = st)
    (fun st d ip ii attrs keys cp cm =>
      (walkObjAttrs st d ip ii attrs keys cp cm).1.store = st)
    (fun st d ip elems i => (walkSeqElems st d ip elems i).1.store = st)
    (fun st d ip entries cnt => (walkDictEntries st d ip entries cnt).1.store = st)
    (fun st d ip elems i => (walkSetElems st d ip elems i).store = st) <;>
  intros <;>
  (try rw [walkValue.eq_def]) <;>
  (try rw [walkSetElems.eq_def]) <;>
  (try rw [walkSeqElems.eq_def]) <;>
  (try rw [walkDictEntries.eq_def]) <;>
  (try rw [walkObjAttrs.eq_def]) <;>
  (try simp_all +zetaDelta [getInspectInfo, apply_ite]) <;>
  (try (dsimp only; split_ifs <;> simp_all +zetaDelta [getInspectInfo, apply_ite]))

/-- Store preservation for the sequence loop. -/
theorem walkSeqElems_store : ∀ (st : Store) (d : Nat) (ip : Option Str)
    (elems : List Value) (i : Nat), (walkSeqElems st d ip elems i).1.store = st := by
  apply @walkSeqElems.induct
    (fun st pd l v ip ap => (walkValue st pd l v ip ap).store = st)
    (fun st d ip ii attrs keys cp cm =>
      (walkObjAttrs st d ip ii attrs keys cp cm).1.store = st)
    (fun st d ip elems i => (walkSeqElems st d ip elems i).1.store = st)
    (fun st d ip entries cnt => (walkDictEntries st d ip entries cnt).1.store = st)
    (fun st d ip elems i => (walkSetElems st d ip elems i).store = st) <;>
  intros <;>
  (try rw [walkValue.eq_def]) <;>
  (try rw [walkSetElems.eq_def]) <;>
  (try rw [walkSeqElems.eq_def]) <;>
  (try rw [walkDictEntries.eq_def]) <;>
  (try rw [walkObjAttrs.eq_def]) <;>
  (try simp_all +zetaDelta [getInspectInfo, apply_ite]) <;>
  (try (dsimp only; split_ifs <;> simp_all +zetaDelta [getInspectInfo, apply_ite]))

/-- Store preservation for the keyed-container loop. -/
theorem walkDictEntries_store : ∀ (st : Store) (d : Nat) (ip : Option Str)
    (entries : List (Str × Except Unit Value)) (cnt : Nat),
    (walkDictEntries st d ip entries cnt).1.store = st := by
  apply @walkDictEntries.induct
    (fun st pd l v ip ap => (walkValue st pd l v ip ap).store = st)
    (fun st d ip ii attrs keys cp cm =>
      (walkObjAttrs st d ip ii attrs keys cp cm).1.store = st)
    (fun st d ip elems i => (walkSeqElems st d ip elems i).1.store = st)
    (fun st d ip entries cnt => (walkDictEntries st d ip entries cnt).1.store = st)
    (fun st d ip elems i => (walkSetElems st d ip elems i).store = st) <;>
  intros <;>
  (try rw [walkValue.eq_def]) <;>
  (try rw [walkSetElems.eq_def]) <;>
  (try rw [walkSeqElems.eq_def]) <;>
  (try rw [walkDictEntries.eq_def]) <;>
  (try rw [walkObjAttrs.eq_def]) <;>
  (try simp_all +zetaDelta [getInspectInfo, apply_ite]) <;>
  (try (dsimp only; split_ifs <;> simp_all +zetaDelta [getInspectInfo, apply_ite]))

/-- Store preservation for the object-member loop. -/
theorem walkObjAttrs_store : ∀ (st : Store) (d : Nat) (ip : Option Str)
    (ii : InspectInfo) (attrs : List (Str × Except Unit (Value × Bool)))
    (keys : List Str) (cp cm : Nat),
    (walkObjAttrs st d ip ii attrs keys cp cm).1.store = st := by
  apply @walkObjAttrs.induct
    (fun st pd l v ip ap => (walkValue st pd l v ip ap).store = st)
    (fun st d ip ii attrs keys cp cm =>
      (walkObjAttrs st d ip ii attrs keys cp cm).1.store = st)
    (fun st d ip elems i => (walkSeqElems st d ip elems i).1.store = st)
    (fun st d ip entries cnt => (walkDictEntries st d ip entries cnt).1.store = st)
    (fun st d ip elems i => (walkSetElems st d ip elems i).store = st) <;>
  intros <;>
  (try rw [walkValue.eq_def]) <;>
  (try rw [walkSetElems.eq_def]) <;>
  (try rw [walkSeqElems.eq_def]) <;>
  (try rw [walkDictEntries.eq_def]) <;>
  (try rw [walkObjAttrs.eq_def]) <;>
  (try simp_all +zetaDelta [getInspectInfo, apply_ite]) <;>
  (try (dsimp only; split_ifs <;> simp_all +zetaDelta [getInspectInfo, apply_ite]))

/-- C8: traversal never mutates the per-path inspection-state store. Every
lookup walk_value and the sinks' add_item perform is read-only: it returns
the stored state, or a fresh default for an absent path, without inserting,
and the store threaded through any whole traversal comes back unchanged. -/
theorem c8_traversal_never_mutates_store :
    (∀ (st : Store) (p : Option Str),
      getInspectInfo st p true = ((storeGet st p).getD defaultIInfo, st))
    ∧ (∀ (st : Store) (pd : Option Nat) (l : Option Str) (v : Value)
        (ip ap : Option Str), (walkValue st pd l v ip ap).store = st) :=
  ⟨fun st p => by simp [getInspectInfo], walkValue_store⟩
/-- C3: make_var_view returns, in order: the return-value nodes; then, when
the top/pinned list is non-empty, the top nodes followed by a separator; then,
when the watch list is non-empty, the watch nodes followed by a separator;
then the main nodes. -/
theorem c3_make_var_view_order (evalW : Str → Except Unit Value)
    (fvi : FrameVarInfo) (locals : List (Str × Value)) :
    makeVarView evalW fvi locals
      = (retBlock fvi locals).map VNode.widget
        ++ (if (tmRun fvi locals).topW = [] then []
            else (tmRun fvi locals).topW.map VNode.widget ++ [VNode.sep])
        ++ (if watchBlock evalW fvi = [] then []
            else (watchBlock evalW fvi).map VNode.widget ++ [VNode.sep])
        ++ (tmRun fvi locals).mainW.map VNode.widget := by
  by_cases hw : watchBlock evalW fvi = [] <;>
  by_cases ht : (tmRun fvi locals).topW = [] <;>
  by_cases hr : retBlock fvi locals = [] <;>
  simp [makeVarView, hw, ht, hr]

/-- A None id_path never repeats at top. -/
theorem shouldRepeatAtTop_none (t : Str) : shouldRepeatAtTop none t = false := rfl

/-- Partitioning by a prefix splits it off. -/
theorem pyPartition_split_at_start (p t : Str) (h : t.isPrefixOf p = true) :
    pyPartition p t = ([], t, p.drop t.length) := by
  rw [pyPartition.eq_def]
  simp [h]

/-- The descendant test of `_should_repeat_at_top`, characterised: for a
non-empty pinned prefix, a path repeats exactly when it equals the prefix or
extends it by a member/index separator character and a (possibly empty)
tail. -/
theorem shouldRepeatAtTop_iff (p tipp : Str) (ht : tipp ≠ []) :
    shouldRepeatAtTop (some p) tipp = true ↔
      (p = tipp ∨ ∃ c rest, p = tipp ++ c :: rest ∧ (c = '.' ∨ c = '<' ∨ c = '[')) := by
  unfold shouldRepeatAtTop
  by_cases he : p = tipp
  · simp [he]
  · simp only [he, if_false]
    by_cases hpre : tipp.isPrefixOf p = true
    · rw [pyPartition_split_at_start p tipp hpre]
      obtain ⟨r, hr⟩ : ∃ r, p = tipp ++ r := by
        obtain ⟨r, hr⟩ := List.isPrefixOf_iff_prefix.mp hpre
        exact ⟨r, hr.symm⟩
      subst hr
      rw [List.drop_left]
      cases r with
      | nil => simp at he
      | cons c rest =>
        constructor
        · intro hb
          simp only [Bool.and_eq_true, Bool.or_eq_true, decide_eq_true_eq] at hb
          exact Or.inr ⟨c, rest, rfl, by tauto⟩
        · intro hb
          rcases hb with h1 | ⟨c', rest', hc, hsep⟩
          · exact h1.elim
          · have h2 := List.append_cancel_left hc
            injection h2 with hcc hrr
            subst hcc
            rcases hsep with h1 | h1 | h1 <;> simp [h1]
    · constructor
      · intro hb
        exfalso
        rw [pyPartition.eq_def] at hb
        simp only [hpre, if_false] at hb
        cases p with
        | nil =>
          simp only [Bool.and_eq_true, decide_eq_true_eq] at hb
          exact ht hb.1.2.symm
        | cons c cs =>
          simp at hb
      · intro hb
        rcases hb with h1 | ⟨c, rest, hc, -⟩
        · exact h1.elim
        · exfalso
          apply hpre
          rw [hc]
          exact List.isPrefixOf_iff_prefix.mpr ⟨c :: rest, rfl⟩

/-- One `TopAndMainVariableWalker.add_item` step: the top list either gains
exactly the constructed widget or stays unchanged; it gains it iff the node's
own state is pinned or its path repeats under a previously recorded prefix;
and the recorded prefixes only grow. -/
theorem tmAddItem_top_spec (st : Store) (s : TMState) (it : Item) :
    ((tmAddItem st s it).topW = s.topW ++ [basicAddItem st it]
        ∨ (tmAddItem st s it).topW = s.topW)
    ∧ ((tmAddItem st s it).topW = s.topW ++ [basicAddItem st it] ↔
        ((getInspectInfo st it.idPath true).1.repeatedAtTop = true
          ∨ ∃ t ∈ s.pins, shouldRepeatAtTop it.idPath t = true))
    ∧ (∀ t ∈ s.pins, t ∈ (tmAddItem st s it).pins) := by
  unfold tmAddItem basicAddItem
  rcases hip : it.idPath with _ | p0 <;>
    by_cases hrt : (getInspectInfo st it.idPath true).1.repeatedAtTop = true <;>
    simp_all [List.any_eq_true, shouldRepeatAtTop_none]
  rcases Classical.em (∃ x ∈ s.pins, shouldRepeatAtTop (some p0) x = true) with h | h
  · exact Or.inl h
  · refine Or.inr fun x hx => ?_
    by_contra hc
    exact h ⟨x, hx, by simpa using hc⟩

/-- C4: during one TopAndMainVariableWalker traversal, a node is duplicated
into the top list iff its own inspection state has repeated_at_top set, or
its id path is a descendant of some already recorded pinned prefix, where
descendant means equality or the prefix immediately followed by a
member/index separator character with a non-empty remainder; and the
pinned-prefix list only grows during the traversal. -/
theorem c4_top_pinning (st : Store) (s : TMState) (it : Item) (p tipp : Str) :
    ((tmAddItem st s it).topW = s.topW ++ [basicAddItem st it]
        ∨ (tmAddItem st s it).topW = s.topW)
    ∧ ((tmAddItem st s it).topW = s.topW ++ [basicAddItem st it] ↔
        ((getInspectInfo st it.idPath true).1.repeatedAtTop = true
          ∨ ∃ t ∈ s.pins, shouldRepeatAtTop it.idPath t = true))
    ∧ (∀ t ∈ s.pins, t ∈ (tmAddItem st s it).pins)
    ∧ (tipp ≠ [] → (shouldRepeatAtTop (some p) tipp = true ↔
        (p = tipp ∨ ∃ c rest, p = tipp ++ c :: rest
          ∧ (c = '.' ∨ c = '<' ∨ c = '[')))) :=
  ⟨(tmAddItem_top_spec st s it).1, (tmAddItem_top_spec st s it).2.1,
   (tmAddItem_top_spec st s it).2.2, fun ht => shouldRepeatAtTop_iff p tipp ht⟩

/-- Witness for C4 at a concrete input: with prefix `x` already pinned, the
node at path `x.y` is duplicated into the top list, and the descendant test
holds for `x.y` under `x`. -/
theorem c4_top_pinning_witness :
    (tmAddItem [] ⟨[], [], [['x']]⟩ ⟨1, none, none, some ['x', '.', 'y'], none⟩).topW
      = [] ++ [basicAddItem [] ⟨1, none, none, some ['x', '.', 'y'], none⟩]
    ∧ (shouldRepeatAtTop (some ['x', '.', 'y']) ['x'] = true ↔
        (['x', '.', 'y'] = ['x'] ∨ ∃ c rest, ['x', '.', 'y'] = ['x'] ++ c :: rest
          ∧ (c = '.' ∨ c = '<' ∨ c = '['))) := by
  have h := c4_top_pinning [] ⟨[], [], [['x']]⟩
    ⟨1, none, none, some ['x', '.', 'y'], none⟩ ['x', '.', 'y'] ['x']
  exact ⟨(h.2.1).mpr (Or.inr ⟨['x'], by decide, by decide⟩), h.2.2.2 (by decide)⟩

/-- C1 evaluated at the failing input: an expanded object whose only
reflectable member `_x` is filtered out as private under the public access
level emits no summary leaf at all. `keys` is non-empty, so the summary
branch (var_view.py:510-517) is skipped even though
`cnt_omitted_private = 1`; the claimed `<omitted private attributes>` leaf
(and the `<omitted methods>` one) can never appear, because the branch that
emits them runs only when `keys` is empty, in which case both omission
counters are still zero and the label is always `<empty>`. -/
theorem c1_failing_input_eval :
    (walkValue
      [(some ['o'], ⟨true, "type".data, false, false, "public".data, false, false⟩)]
      none (some ['o'])
      (.vobj ['A'] (.ok ['A']) (.ok ['A']) none (.ok [['_', 'x']])
        [(['_', 'x'], .ok (.vint 0, false))])
      none none).items
      = [⟨0, some ['o'], some "A [pub]".data, some ['o'], none⟩] := by
  simp [walkValue, walkObjAttrs, getInspectInfo, storeGet,
    displayedAndLog, applyStringifier, typeStringifier, detailMarker,
    builtinContainerName, childDepth, sortByLt, insertSorted, strLt,
    routineOmitted, assocFind]

/-- The id path a walk step resolves for itself (var_view.py:364-365): the
explicit path when given, else the label. -/
def resolvePath (label idPath0 : Option Str) : Option Str :=
  match idPath0 with
  | none => label
  | some p => some p

/-- C10: when dir() itself raises on an expanded generic object, the
traversal still completes, emitting the node, an `<empty>` summary leaf
(no names were collected), and a `<?>` leaf, with the failure logged. -/
theorem c10_dir_failure_contained (st : Store) (pd : Option Nat)
    (l ip ap : Option Str) (tn : Str) (reprR strR : Except Unit Str)
    (safeStr : Option (Except Unit Str))
    (attrs : List (Str × Except Unit (Value × Bool)))
    (h : (getInspectInfo st (resolvePath l ip) true).1.showDetail = true) :
    (walkValue st pd l (.vobj tn reprR strR safeStr (.error ()) attrs) ip ap).items
      = [⟨childDepth pd, l,
          some (displayedAndLog (getInspectInfo st (resolvePath l ip) true).1
            (.vobj tn reprR strR safeStr (.error ()) attrs)).1,
          resolvePath l ip, ap⟩,
         ⟨childDepth pd + 1, some "<empty>".data, none, none, none⟩,
         ⟨childDepth pd + 1, some "<?>".data, none, none, none⟩]
    ∧ "Failed to look up attributes".data
        ∈ (walkValue st pd l (.vobj tn reprR strR safeStr (.error ()) attrs) ip ap).log := by
  rw [walkValue.eq_def]
  cases ip <;> simp_all [resolvePath]

/-- Witness for C10 at a concrete expanded object whose dir() raises. -/
theorem c10_dir_failure_witness :
    ((getInspectInfo
        [(some ['o'], ⟨true, "type".data, false, false, "public".data, false, false⟩)]
        (resolvePath (some ['o']) none) true).1.showDetail = true)
    ∧ ((walkValue
        [(some ['o'], ⟨true, "type".data, false, false, "public".data, false, false⟩)]
        none (some ['o'])
        (.vobj ['A'] (.ok ['A']) (.ok ['A']) none (.error ()) []) none none).items
        = [⟨0, some ['o'],
            some (displayedAndLog
              (getInspectInfo
                [(some ['o'], ⟨true, "type".data, false, false, "public".data, false, false⟩)]
                (resolvePath (some ['o']) none) true).1
              (.vobj ['A'] (.ok ['A']) (.ok ['A']) none (.error ()) [])).1,
            resolvePath (some ['o']) none, none⟩,
           ⟨1, some "<empty>".data, none, none, none⟩,
           ⟨1, some "<?>".data, none, none, none⟩]
      ∧ "Failed to look up attributes".data
          ∈ (walkValue
              [(some ['o'], ⟨true, "type".data, false, false, "public".data, false, false⟩)]
              none (some ['o'])
              (.vobj ['A'] (.ok ['A']) (.ok ['A']) none (.error ()) []) none none).log) :=
  ⟨by decide,
   c10_dir_failure_contained _ none (some ['o']) none none ['A']
     (.ok ['A']) (.ok ['A']) none [] (by decide)⟩

/-- C5: when the stringifier selected by the node's display type raises on a
non-primitive value, walk_value does not propagate the failure: the first
emitted item carries the type-summary text with the inline error-marker
suffix (plus the detail marker when expanded), the failure is logged, and the
walk returns normally. -/
theorem c5_stringifier_failure_contained (st : Store) (pd : Option Nat)
    (l ip ap : Option Str) (v : Value)
    (hnp : v.isPrimitive = false)
    (hfail : applyStringifier
      (getInspectInfo st (resolvePath l ip) true).1.displayType v = .error ()) :
    (walkValue st pd l v ip ap).items.head?
      = some ⟨childDepth pd, l,
          some (if (getInspectInfo st (resolvePath l ip) true).1.showDetail then
              (typeStringifier v ++ " (!! ".data
                ++ (getInspectInfo st (resolvePath l ip) true).1.displayType
                ++ " error !!)".data)
                ++ detailMarker (getInspectInfo st (resolvePath l ip) true).1
            else
              typeStringifier v ++ " (!! ".data
                ++ (getInspectInfo st (resolvePath l ip) true).1.displayType
                ++ " error !!)".data),
          resolvePath l ip, ap⟩
    ∧ "stringifier failed".data ∈ (walkValue st pd l v ip ap).log := by
  cases v with
  | vint n => simp [Value.isPrimitive] at hnp
  | vstr s => simp [Value.isPrimitive] at hnp
  | vnone => simp [Value.isPrimitive] at hnp
  | verr =>
    rw [walkValue.eq_def]
    cases ip <;> simp_all [resolvePath, displayedAndLog] <;> split_ifs <;> simp_all
  | vset tn ex elems =>
    rw [walkValue.eq_def]
    cases ip <;> simp_all [resolvePath, displayedAndLog] <;> split_ifs <;> simp_all
  | vdict tn ex entries =>
    rw [walkValue.eq_def]
    cases ip <;> simp_all [resolvePath, displayedAndLog] <;> split_ifs <;> simp_all
  | vseq tn ex elems =>
    rw [walkValue.eq_def]
    cases ip <;> simp_all [resolvePath, displayedAndLog] <;> split_ifs <;> simp_all
  | vobj tn reprR strR safeStr dirR attrs =>
    rw [walkValue.eq_def]
    cases ip <;> cases dirR <;> simp_all [resolvePath, displayedAndLog] <;>
      split_ifs <;> simp_all

/-- Witness for C5 at a concrete object whose `__str__` raises under the
"str" display type. -/
theorem c5_stringifier_failure_witness :
    ((Value.vobj ['A'] (.ok ['A']) (.error ()) none (.ok []) []).isPrimitive = false)
    ∧ (applyStringifier
        (getInspectInfo
          [(some ['o'], ⟨false, "str".data, false, false, "public".data, false, false⟩)]
          (resolvePath (some ['o']) none) true).1.displayType
        (.vobj ['A'] (.ok ['A']) (.error ()) none (.ok []) []) = .error ())
    ∧ ((walkValue
        [(some ['o'], ⟨false, "str".data, false, false, "public".data, false, false⟩)]
        none (some ['o'])
        (.vobj ['A'] (.ok ['A']) (.error ()) none (.ok []) []) none none).items.head?
      = some ⟨0, some ['o'],
          some (if (getInspectInfo
              [(some ['o'], ⟨false, "str".data, false, false, "public".data, false, false⟩)]
              (resolvePath (some ['o']) none) true).1.showDetail then
              (typeStringifier (.vobj ['A'] (.ok ['A']) (.error ()) none (.ok []) [])
                ++ " (!! ".data
                ++ (getInspectInfo
                  [(some ['o'], ⟨false, "str".data, false, false, "public".data, false, false⟩)]
                  (resolvePath (some ['o']) none) true).1.displayType
                ++ " error !!)".data)
                ++ detailMarker (getInspectInfo
                  [(some ['o'], ⟨false, "str".data, false, false, "public".data, false, false⟩)]
                  (resolvePath (some ['o']) none) true).1
            else
              typeStringifier (.vobj ['A'] (.ok ['A']) (.error ()) none (.ok []) [])
                ++ " (!! ".data
                ++ (getInspectInfo
                  [(some ['o'], ⟨false, "str".data, false, false, "public".data, false, false⟩)]
                  (resolvePath (some ['o']) none) true).1.displayType
                ++ " error !!)".data),
          resolvePath (some ['o']) none, none⟩
      ∧ "stringifier failed".data
          ∈ (walkValue
              [(some ['o'], ⟨false, "str".data, false, false, "public".data, false, false⟩)]
              none (some ['o'])
              (.vobj ['A'] (.ok ['A']) (.error ()) none (.ok []) []) none none).log) :=
  ⟨by decide, by rfl,
   c5_stringifier_failure_contained _ none (some ['o']) none none
     (.vobj ['A'] (.ok ['A']) (.error ()) none (.ok []) []) (by decide) (by rfl)⟩

/-- The member names of an expanded generic object that survive walk_value's
access-level and show_methods filtering (var_view.py:488-506), in order. -/
def keptKeys (iinfo : InspectInfo)
    (attrs : List (Str × Except Unit (Value × Bool))) : List Str → List Str
  | [] => []
  | key :: rest =>
    if (iinfo.accessLevel = "public".data && "_".data.isPrefixOf key) ||
        (iinfo.accessLevel = "private".data && "__".data.isPrefixOf key
          && "__".data.isSuffixOf key) then keptKeys iinfo attrs rest
    else if routineOmitted iinfo attrs key then keptKeys iinfo attrs rest
    else key :: keptKeys iinfo attrs rest

/-- The object-member loop walks exactly the surviving keys, in order: its
emission trace is the concatenation of the member walks of `keptKeys` (the
store is read-only during traversal, so every member walk starts from the
same store). -/
theorem walkObjAttrs_items_decomp (iinfo : InspectInfo)
    (attrs : List (Str × Except Unit (Value × Bool))) (keys : List Str)
    (st : Store) (d : Nat) (ip : Option Str) (cp cm : Nat) :
    (walkObjAttrs st d ip iinfo attrs keys cp cm).1.items
      = ((keptKeys iinfo attrs keys).map (fun k =>
          (walkValue st (some d) (some ('.' :: k)) (attrValueOf attrs k)
            (some (fmtOpt ip ++ ".".data ++ k)) none).items)).flatten := by
  induction keys generalizing st cp cm with
  | nil => rw [walkObjAttrs.eq_def]; simp [keptKeys]
  | cons key rest ih =>
    rw [walkObjAttrs.eq_def]
    by_cases h1 : ((iinfo.accessLevel = "public".data && "_".data.isPrefixOf key) ||
        (iinfo.accessLevel = "private".data && "__".data.isPrefixOf key
          && "__".data.isSuffixOf key)) = true
    · simp [keptKeys, h1, ih]
    · by_cases h2 : routineOmitted iinfo attrs key = true
      · simp only [keptKeys]
        simp [h1, h2, ih]
      · simp only [keptKeys]
        simp [h1, h2, ih, walkValue_store]

/-- Soundness of the filter: every kept key passed the access filter, is not
a hidden routine, and came from the key list. -/
theorem keptKeys_mem_spec (iinfo : InspectInfo)
    (attrs : List (Str × Except Unit (Value × Bool))) (keys : List Str) (k : Str)
    (h : k ∈ keptKeys iinfo attrs keys) :
    ((iinfo.accessLevel = "public".data && "_".data.isPrefixOf k) ||
     (iinfo.accessLevel = "private".data && "__".data.isPrefixOf k
       && "__".data.isSuffixOf k)) = false
    ∧ routineOmitted iinfo attrs k = false ∧ k ∈ keys := by
  induction keys with
  | nil => simp [keptKeys] at h
  | cons key rest ih =>
    by_cases h1 : ((iinfo.accessLevel = "public".data && "_".data.isPrefixOf key) ||
        (iinfo.accessLevel = "private".data && "__".data.isPrefixOf key
          && "__".data.isSuffixOf key)) = true
    · simp only [keptKeys, h1, if_true] at h
      obtain ⟨a, b, c⟩ := ih h
      exact ⟨a, b, List.mem_cons_of_mem _ c⟩
    · by_cases h2 : routineOmitted iinfo attrs key = true
      · simp only [keptKeys, h1, if_false, h2, if_true] at h
        obtain ⟨a, b, c⟩ := ih h
        exact ⟨a, b, List.mem_cons_of_mem _ c⟩
      · simp only [keptKeys, h1, if_false, h2] at h
        rcases List.mem_cons.mp h with rfl | h3
        · exact ⟨Bool.eq_false_iff.mpr h1, Bool.eq_false_iff.mpr h2,
            List.mem_cons_self _ _⟩
        · obtain ⟨a, b, c⟩ := ih h3
          exact ⟨a, b, List.mem_cons_of_mem _ c⟩

/-- Completeness of the filter: a listed key that passes the access filter
and is not a hidden routine is kept. -/
theorem keptKeys_complete (iinfo : InspectInfo)
    (attrs : List (Str × Except Unit (Value × Bool))) (keys : List Str) (k : Str)
    (hk : k ∈ keys)
    (hacc : ((iinfo.accessLevel = "public".data && "_".data.isPrefixOf k) ||
      (iinfo.accessLevel = "private".data && "__".data.isPrefixOf k
        && "__".data.isSuffixOf k)) = false)
    (hrt : routineOmitted iinfo attrs k = false) :
    k ∈ keptKeys iinfo attrs keys := by
  induction keys with
  | nil => simp at hk
  | cons key rest ih =>
    rcases List.mem_cons.mp hk with rfl | hk2
    · simp only [keptKeys, hacc, if_false, hrt]
      exact List.mem_cons_self _ _
    · by_cases h1 : ((iinfo.accessLevel = "public".data && "_".data.isPrefixOf key) ||
        (iinfo.accessLevel = "private".data && "__".data.isPrefixOf key
          && "__".data.isSuffixOf key)) = true
      · simp only [keptKeys, h1, if_true]
        exact ih hk2
      · by_cases h2 : routineOmitted iinfo attrs key = true
        · simp only [keptKeys, h1, if_false, h2, if_true]
          exact ih hk2
        · simp only [keptKeys, h1, if_false, h2]
          exact List.mem_cons_of_mem _ (ih hk2)

/-- C7: member filtering of an expanded generic object. The walk emits
exactly the kept members in order; with access level public no kept name
starts with an underscore; with private, dunder names are hidden while other
names (single-underscore ones included) are kept when not hidden routines;
with access level all, nothing is hidden by the access filter; and in every
access level, members resolving to routines are omitted when show_methods is
false. -/
theorem c7_access_level_filtering (st : Store) (d : Nat) (ip : Option Str)
    (iinfo : InspectInfo) (attrs : List (Str × Except Unit (Value × Bool)))
    (keys : List Str) (cp cm : Nat) :
    ((walkObjAttrs st d ip iinfo attrs keys cp cm).1.items
      = ((keptKeys iinfo attrs keys).map (fun k =>
          (walkValue st (some d) (some ('.' :: k)) (attrValueOf attrs k)
            (some (fmtOpt ip ++ ".".data ++ k)) none).items)).flatten)
    ∧ (iinfo.accessLevel = "public".data →
        ∀ k ∈ keptKeys iinfo attrs keys, "_".data.isPrefixOf k = false)
    ∧ (iinfo.accessLevel = "private".data →
        ∀ k ∈ keptKeys iinfo attrs keys,
          ¬("__".data.isPrefixOf k = true ∧ "__".data.isSuffixOf k = true))
    ∧ (iinfo.accessLevel = "private".data →
        ∀ k ∈ keys,
          ¬("__".data.isPrefixOf k = true ∧ "__".data.isSuffixOf k = true) →
          routineOmitted iinfo attrs k = false → k ∈ keptKeys iinfo attrs keys)
    ∧ (iinfo.accessLevel = "all".data →
        ∀ k ∈ keys, routineOmitted iinfo attrs k = false →
          k ∈ keptKeys iinfo attrs keys)
    ∧ (iinfo.showMethods = false →
        ∀ k av, assocFind attrs k = some (.ok (av, true)) →
          k ∉ keptKeys iinfo attrs keys) := by
  refine ⟨walkObjAttrs_items_decomp iinfo attrs keys st d ip cp cm, ?_, ?_, ?_, ?_, ?_⟩
  · intro hacc k hk
    have h := (keptKeys_mem_spec iinfo attrs keys k hk).1
    simp [hacc] at h
    simpa using h
  · intro hacc k hk
    have h := (keptKeys_mem_spec iinfo attrs keys k hk).1
    simp [hacc] at h
    intro hc
    have h2 := h (by simpa using hc.1)
    simp [hc.2] at h2
  · intro hacc k hk hdunder hrt
    refine keptKeys_complete iinfo attrs keys k hk ?_ hrt
    simp [hacc]
    intro hpre
    rw [Bool.eq_false_iff]
    intro hsuf
    exact hdunder ⟨List.isPrefixOf_iff_prefix.mpr hpre, hsuf⟩
  · intro hacc k hk hrt
    refine keptKeys_complete iinfo attrs keys k hk ?_ hrt
    simp [hacc]
  · intro hsm k av hfind hk
    have h := (keptKeys_mem_spec iinfo attrs keys k hk).2.1
    simp [routineOmitted, hfind, hsm] at h

/-- Witness for C7: with public access, the kept member `b` of an object
listing `_a` and `b` does not start with an underscore. -/
theorem c7_access_level_filtering_witness :
    (⟨true, "type".data, false, false, "public".data, false, false⟩
      : InspectInfo).accessLevel = "public".data
    ∧ "_".data.isPrefixOf ['b'] = false :=
  ⟨rfl, (c7_access_level_filtering [] 0 none
      ⟨true, "type".data, false, false, "public".data, false, false⟩
      [(['b'], .ok (.vint 1, false))] [['_', 'a'], ['b']] 0 0).2.1 rfl ['b']
      (by decide)⟩

/-- Store for the C2 scenario: the sequence at path `l` is expanded; the
continuation marker `l.cont-10` is explicitly present and collapsed. -/
def c2Store : Store :=
  [(some ['l'], ⟨true, "type".data, false, false, "public".data, false, false⟩),
   (some "l.cont-10".data,
    ⟨false, "type".data, false, false, "public".data, false, false⟩)]

/-- Store for the second C2 scenario: `l` expanded, `l.cont-10` expanded,
`l.cont-20` collapsed. -/
def c2StoreExp : Store :=
  [(some ['l'], ⟨true, "type".data, false, false, "public".data, false, false⟩),
   (some "l.cont-10".data,
    ⟨true, "type".data, false, false, "public".data, false, false⟩),
   (some "l.cont-20".data,
    ⟨false, "type".data, false, false, "public".data, false, false⟩)]

/-- Counterexample for C2 as stated: a 25-element list with `show_detail` on
and all continuation markers collapsed emits 12 nodes in total - the parent
plus 11 children (elements 0-9 and one continuation placeholder) - not the
claimed 10 children (which with the parent would be 11 nodes). -/
theorem c2_pagination_counterexample :
    ((walkValue c2Store none (some ['l'])
        (.vseq "list".data true ((List.range 25).map (fun i => .vint i)))
        none none).items.length = 12
      ∧ ¬((walkValue c2Store none (some ['l'])
        (.vseq "list".data true ((List.range 25).map (fun i => .vint i)))
        none none).items.length = 11)) := by
  have h10 : (Nat.repr 10).data = ['1', '0'] := by decide
  have h20 : (Nat.repr 20).data = ['2', '0'] := by decide
  constructor <;>
  simp [walkValue, walkSeqElems, c2Store, getInspectInfo, storeGet,
    displayedAndLog, applyStringifier, typeStringifier, natRepr, fmtOpt, h10, h20,
    childDepth, builtinContainerName, detailMarker, List.range, List.range.loop]

/-- C2 amended: for a 25-element sequence with `show_detail=true` and the
continuation markers collapsed, the walk emits the parent, then elements 0-9,
then one continuation placeholder at `.cont-10` - 11 child nodes beneath the
parent (10 elements plus the placeholder), not 25 and not 10. When the
`.cont-10` marker's own state is expanded, elements 10-19 are also emitted
and the pattern repeats: a placeholder appears at `.cont-20`. -/
theorem c2_pagination_amended (f : Nat → Int) :
    ((walkValue c2Store none (some ['l'])
      (.vseq "list".data true ((List.range 25).map (fun i => .vint (f i))))
      none none).items
    = ⟨0, some ['l'], some "list (25) [pub]".data, some ['l'], none⟩
      :: (((List.range 10).map (fun i =>
          (⟨1, some (natRepr i), some (intRepr (f i)),
            some (['l'] ++ "[".data ++ natRepr i ++ "]".data), none⟩ : Item)))
        ++ [⟨1, some "...".data, none, some "l.cont-10".data, none⟩]))
    ∧ ((walkValue c2StoreExp none (some ['l'])
      (.vseq "list".data true ((List.range 25).map (fun i => .vint (f i))))
      none none).items
    = ⟨0, some ['l'], some "list (25) [pub]".data, some ['l'], none⟩
      :: (((List.range 20).map (fun i =>
          (⟨1, some (natRepr i), some (intRepr (f i)),
            some (['l'] ++ "[".data ++ natRepr i ++ "]".data), none⟩ : Item)))
        ++ [⟨1, some "...".data, none, some "l.cont-20".data, none⟩])) := by
  have h10 : (Nat.repr 10).data = ['1', '0'] := by decide
  have h20 : (Nat.repr 20).data = ['2', '0'] := by decide
  have h25 : (Nat.repr 25).data = ['2', '5'] := by decide
  constructor <;>
  simp [walkValue, walkSeqElems, c2Store, c2StoreExp, getInspectInfo, storeGet,
    displayedAndLog, applyStringifier, typeStringifier, natRepr, fmtOpt, h10, h20,
    h25, childDepth, builtinContainerName, detailMarker, List.range, List.range.loop]

/-- C9: rendering is pure. The render call leaves the widget unchanged (the
method body assigns no attribute of self), and calling render again on the
post-call widget with the same width and focus flag produces the identical
(lines, color-span) output. -/
theorem c9_render_pure (w : VariableWidget) (maxcol : Nat) (focus : Bool) :
    (render w maxcol focus).2 = w
    ∧ (render ((render w maxcol focus).2) maxcol focus).1
        = (render w maxcol focus).1 := by
  have h : (render w maxcol focus).2 = w := by
    unfold render
    dsimp only
    split <;> rfl
  exact ⟨h, by rw [h]⟩
